import Mathlib

/-!
A shallow embedding of the session/request layer of the `dropcam` Go package
(`src/dropcam.go`) together with theorems settling the specification claims.

The HTTP transport is abstracted: each embedded operation takes, as an extra
argument, the outcome that the underlying transport call would produce
(either a transport error or a received response).  Everything the Go code
does with that outcome — header reads, body reads, JSON decoding of the
`status` field, error construction, state updates — is translated from the
source.
-/

namespace DropcamLib

/-- Constants from `src/dropcam.go` lines 25-30. -/
def NexusBase : String := "https://nexusapi.dropcam.com"

def ApiBase : String := "https://www.dropcam.com"

def ApiPath : String := "api/v1"

def Devel : Bool := false

/-- `UserCreds` (line 33): credentials sent to the DropCam URL. -/
structure UserCreds where
  Username : String
  Password : String
deriving DecidableEq, Repr

/-- `Dropcam` (line 39): endpoint table, credentials and session cookie. -/
structure Dropcam where
  LoginPath : String
  CamerasGet : String
  CamerasUpdate : String
  CamerasGetVisible : String
  CamerasGetImagePath : String
  EventPath : String
  EventGetClipPath : String
  PropertiesPath : String
  Creds : UserCreds
  Cookie : String
deriving DecidableEq, Repr

/-- The JSON content carried by a response body, as far as `getBodyRespCode`
inspects it: `json.Unmarshal` into `struct { Status int }` fails on malformed
bytes (in particular on the empty byte string), yields the zero value `0` when
the object has no `status` field, and yields the field otherwise. -/
inductive BodyJson
  | malformed
  | objNoStatus
  | objStatus (n : Int)
deriving DecidableEq, Repr

/-- An `io.ReadCloser` response body: a one-shot reader.  `content` is the
JSON content of the bytes the body holds; once consumed, a further
`ioutil.ReadAll` returns empty bytes. -/
structure ReadCloser where
  content : BodyJson
  consumed : Bool
deriving DecidableEq, Repr

/-- `ioutil.ReadAll` on a response body: returns the bytes (here: their JSON
content) and leaves the reader exhausted.  Reading an already-consumed body
yields empty bytes, which decode as malformed JSON
("unexpected end of JSON input"). -/
def ReadCloser.readAll (rb : ReadCloser) : BodyJson × ReadCloser :=
  if rb.consumed then (BodyJson.malformed, { rb with consumed := true })
  else (rb.content, { rb with consumed := true })

/-- `json.Unmarshal(body, &bStat)` for `struct { Status int }`
(lines 125-132). -/
def decodeStatus : BodyJson → Except String Int
  | BodyJson.malformed => Except.error "unexpected end of JSON input"
  | BodyJson.objNoStatus => Except.ok 0
  | BodyJson.objStatus n => Except.ok n

/-- `getBodyRespCode` (lines 121-135): read the whole body — the read error
is discarded (`body, _ := ioutil.ReadAll(rb)`) — and decode its integer
`Status` field.  Returns the result together with the now-consumed reader. -/
def getBodyRespCode (rb : ReadCloser) : Except String Int × ReadCloser :=
  let p := rb.readAll
  (decodeStatus p.1, p.2)

/-- An `*http.Response` as inspected by `postRequest` / `SetProperties`:
the transport HTTP status code and the one-shot body reader. -/
structure Response where
  statusCode : Nat
  body : ReadCloser
deriving DecidableEq, Repr

/-- The request configuration a `fluent` request builder accumulates:
`retryCount` is `some n` when `.Retry(n)` is called and `none` when the
builder is sent without configuring a retry; `initialIntervalMs` is the
argument of `.InitialInterval`. -/
structure RequestConfig where
  retryCount : Option Nat
  initialIntervalMs : Nat
deriving DecidableEq, Repr

/-- The configuration `postRequest` (lines 137-148) installs on its request:
`InitialInterval(time.Millisecond)` and `Json(data)`; no `.Retry` call. -/
def postRequestConfig : RequestConfig :=
  { retryCount := none, initialIntervalMs := 1 }

/-- The configuration `getRequest` (lines 164-177) installs on its request:
`InitialInterval(time.Millisecond).Retry(3)`. -/
def getRequestConfig : RequestConfig :=
  { retryCount := some 3, initialIntervalMs := 1 }

/-- `postRequest` (lines 137-162), validation part: given the response the
transport delivered, read the body's `status` field via `getBodyRespCode` —
consuming the body — and accept iff it equals `200`.  The transport HTTP
status code (`resp.StatusCode`) is never examined. -/
def postRequest (resp : Response) : Except String Response :=
  let p := getBodyRespCode resp.body
  match p.1 with
  | Except.error _ => Except.error "Failed to get Reply Response Code"
  | Except.ok rc =>
    if rc ≠ 200 then Except.error "Malformed Request"
    else Except.ok { resp with body := p.2 }

/-- The headers of the login response as `login` inspects them:
`response.Header.Get("Set-Cookie")`. -/
structure LoginResponse where
  setCookie : String
deriving DecidableEq, Repr

/-- `login` (lines 214-233): issue the login GET (its outcome is the `resp`
argument); on transport failure wrap the error; otherwise store the
`Set-Cookie` header into `d.Cookie` and fail when it is empty.  Returns the
updated receiver and the error (`none` on success). -/
def login (d : Dropcam) (resp : Except String LoginResponse) :
    Dropcam × Option String :=
  match resp with
  | Except.error e => (d, some ("Login Request Failed: " ++ e))
  | Except.ok r =>
    let d2 := { d with Cookie := r.setCookie }
    if d2.Cookie = "" then (d2, some "Login Returned No Cookie")
    else (d2, none)

/-- `Init` (lines 190-212): build the endpoint table, store the credentials,
clear the cookie, then `login`.  On login failure Go returns `(nil, err)`. -/
def Init (username password : String) (loginResp : Except String LoginResponse) :
    Except String Dropcam :=
  let d : Dropcam :=
    { LoginPath := ApiBase ++ "/" ++ ApiPath ++ "/" ++ "login.login"
      CamerasGet := ApiBase ++ "/" ++ ApiPath ++ "/" ++ "cameras.get"
      CamerasUpdate := ApiBase ++ "/" ++ ApiPath ++ "/" ++ "cameras.update"
      CamerasGetVisible := ApiBase ++ "/" ++ ApiPath ++ "/" ++ "cameras.get_visible"
      CamerasGetImagePath := ApiBase ++ "/" ++ ApiPath ++ "/" ++ "cameras.get_image"
      EventPath := NexusBase ++ "/" ++ "get_cuepoint"
      EventGetClipPath := NexusBase ++ "/" ++ "get_event_clip"
      PropertiesPath := ApiBase ++ "/" ++ "app/cameras/properties"
      Creds := { Username := username, Password := password }
      Cookie := "" }
  match login d loginResp with
  | (_, some e) => Except.error e
  | (d2, none) => Except.ok d2

/-- `Owned` (lines 64-93): the attributes of a user's camera.  Only the
fields any operation of the library touches are embedded (`Uuid` for the
property/event/image requests, `Title` for the demo); the remaining decoded
JSON fields are inert data never read by the session layer. -/
structure Owned where
  Title : String
  Uuid : String
deriving DecidableEq, Repr

/-- One element of `Cam.Items` (lines 100-104). -/
structure CamItems where
  Owned : List Owned
deriving DecidableEq, Repr

/-- `Cam` (lines 100-108): the decoded camera-list envelope. -/
structure Cam where
  Items : List CamItems
  Status : Int
  StatusDescription : String
  StatusDetail : String
deriving DecidableEq, Repr

/-- `Cameras` (lines 54-57): the flattened list of owned cameras (the
back-pointer to the `Dropcam` receiver is not data). -/
structure Cameras where
  Cam : List Owned
deriving DecidableEq, Repr

/-- The camera-list response as `Cameras` inspects it: `readErr` records
whether `ioutil.ReadAll(response.Body)` returned an error (line 252 — the
error is assigned but never checked before being overwritten), and `decoded`
is what `json.Unmarshal` of the bytes that were read yields. -/
structure ListResponse where
  readErr : Bool
  decoded : Except String Cam
deriving Repr

/-- The `Cameras` method (lines 237-271).  `loginResp` is the outcome the
login GET would produce, `listResp` the outcome of the `cameras.get_visible`
GET.  With an empty cookie the method returns `nil, d.login()` — the login
error (possibly `nil`) with a `nil` camera list, never proceeding to the
fetch.  Otherwise it fetches, ignores the body-read error, unmarshals, and
flattens `cam.Items[*].Owned`.  The result pairs the returned `*Cameras`
(`none` for Go's `nil`) with the returned error. -/
def camerasCall (d : Dropcam) (loginResp : Except String LoginResponse)
    (listResp : Except String ListResponse) : Option Cameras × Option String :=
  if d.Cookie = "" then
    (none, (login d loginResp).2)
  else
    match listResp with
    | Except.error _ => (none, some "Get Visible Cameras Request Failed")
    | Except.ok r =>
      match r.decoded with
      | Except.error e => (none, some e)
      | Except.ok cam =>
        (some { Cam := (cam.Items.map CamItems.Owned).flatten }, none)

/-- `CamProp` (lines 273-277): the JSON body of a property update. -/
structure CamProp where
  UUID : String
  Name : String
  Value : String
deriving DecidableEq, Repr

/-- The JSON object `CamProp` marshals to, per its struct tags
(`camera_uuid`, `name`, `value`). -/
def CamProp.jsonFields (p : CamProp) : List (String × String) :=
  [("camera_uuid", p.UUID), ("name", p.Name), ("value", p.Value)]

/-- The `CamProp` value `SetProperties` builds (lines 293-296). -/
def mkCamProp (o : Owned) (name : String) (value : String) : CamProp :=
  { UUID := o.Uuid, Name := name, Value := value }

/-- `SetProperties` (lines 281-312), given the response the properties
endpoint returns: run `postRequest` (which consumes the response body while
checking its `status`), then read the body's `status` field a second time
from the same `*http.Response` and accept iff it equals `200`. -/
def SetProperties (resp : Response) : Bool × Option String :=
  match postRequest resp with
  | Except.error _ => (false, some "Failed postRequest ")
  | Except.ok resp2 =>
    match (getBodyRespCode resp2.body).1 with
    | Except.error _ => (false, some "Failed to get Reply Response Code")
    | Except.ok rc =>
      if rc ≠ 200 then (false, some "SeProperties Malformed Request")
      else (true, none)

/-- `Events` (lines 60-61): an empty struct in the source. -/
inductive Events
  | mk
deriving DecidableEq, Repr

/-- The query parameters `GetEvents` sets (lines 325-329), with the start
and end times already converted to epoch seconds (`st.Unix()`, `et.Unix()`). -/
def buildEventQuery (uuid : String) (stUnix etUnix : Int) :
    List (String × String) :=
  [("uuid", uuid),
   ("start_time", toString stUnix),
   ("end_time", toString (etUnix - 60 * 60 * 24)),
   ("human", "True")]

/-- The event response as `GetEvents` inspects it: whether the body read
failed, and what `json.Unmarshal` into the empty `Events` struct yields. -/
structure EventResponse where
  readErr : Bool
  decoded : Except String Unit
deriving Repr

/-- `GetEvents` (lines 315-353), given the outcome of the event GET: on
transport failure or a body-read failure return an error; on a decode
failure return that error; otherwise `return nil, nil` — the decoded value
is discarded and the returned event list is always the nil slice. -/
def GetEvents (resp : Except String EventResponse) :
    Except String (List Events) :=
  match resp with
  | Except.error _ => Except.error "Get Visible Cameras Request Failed"
  | Except.ok r =>
    if r.readErr then Except.error "EVent ioutil.ReadAll failed"
    else
      match r.decoded with
      | Except.error e => Except.error e
      | Except.ok _ => Except.ok []

/-- The image response as `getImage` inspects it: the transport status code,
the `content-length` header (a string, compared against `"0"`), the body
bytes, and whether the body read failed. -/
structure ImageResponse where
  StatusCode : Nat
  contentLength : String
  bodyBytes : List Nat
  readErr : Bool
deriving DecidableEq, Repr

/-- `getImage` (lines 355-383), given the outcome of the image GET: on
transport failure or a body-read failure return an error; then reject when
the transport status is not `200` or the `content-length` header equals
`"0"`; otherwise return the body bytes. -/
def getImage (resp : Except String ImageResponse) :
    Except String (List Nat) :=
  match resp with
  | Except.error _ => Except.error "Get Image Failed"
  | Except.ok r =>
    if r.readErr then Except.error "Failed to get Reply Response Code"
    else if r.StatusCode != 200 || r.contentLength == "0" then
      Except.error "Malformed Request or image has 0 size"
    else Except.ok r.bodyBytes

/-- `SaveImage` (lines 387-406): fetch the image via `getImage`; on failure
return that error without touching the file; on success hand exactly the
fetched bytes to `ioutil.WriteFile(path, img, 0644)`.  The first component
is the bytes handed to `WriteFile` (`none` when no write is attempted);
`writeErr` is the outcome `WriteFile` would return. -/
def SaveImage (imgResp : Except String ImageResponse)
    (writeErr : Option String) : Option (List Nat) × Option String :=
  match getImage imgResp with
  | Except.error e => (none, some e)
  | Except.ok img =>
    match writeErr with
    | some e => (some img, some e)
    | none => (some img, none)

/-- Modelled from the spec: the retry driver of the HTTP transport lives in
the `fluent` dependency, which is not part of this repository; the spec
fixes only "up to a fixed maximum attempt count on failure".  A transport is
a function from the 0-based attempt index to an optional response; the
driver makes attempts until one yields a response or the maximum attempt
count is exhausted, and reports how many attempts were made together with
the final outcome. -/
def retryRun (transport : Nat → Option Response) :
    Nat → Nat → Nat × Option Response
  | 0, used => (used, none)
  | n + 1, used =>
    match transport used with
    | some r => (used + 1, some r)
    | none => retryRun transport n (used + 1)

/-- A concrete camera fixture. -/
def cam1 : Owned := { Title := "Front Door", Uuid := "u1" }

/-- A concrete decoded camera-list envelope holding one owned camera. -/
def camOne : Cam :=
  { Items := [{ Owned := [cam1] }]
    Status := 200
    StatusDescription := "ok"
    StatusDetail := "" }

/-- A concrete `Dropcam` whose session cookie is empty. -/
def dEmptyCookie : Dropcam :=
  { LoginPath := "L", CamerasGet := "G", CamerasUpdate := "U"
    CamerasGetVisible := "V", CamerasGetImagePath := "I"
    EventPath := "E", EventGetClipPath := "C", PropertiesPath := "P"
    Creds := { Username := "alice", Password := "secret" }
    Cookie := "" }

/-- A concrete `Dropcam` holding a session cookie. -/
def dAuth : Dropcam := { dEmptyCookie with Cookie := "tok" }

/-- A concrete response carrying transport status 200 and body status 200. -/
def respOk : Response :=
  { statusCode := 200
    body := { content := BodyJson.objStatus 200, consumed := false } }

/-- A transport that fails on the first two attempts and succeeds on the
third. -/
def flakyTransport : Nat → Option Response := fun i =>
  if i < 2 then none else some respOk

/-- A transport that always fails. -/
def deadTransport : Nat → Option Response := fun _ => none

/-- A concrete image response: transport status 200 but zero content
length. -/
def imgZero : ImageResponse :=
  { StatusCode := 200, contentLength := "0", bodyBytes := [], readErr := false }

/-- Unfolding of the spec-modelled retry driver at three attempts. -/
theorem retryRun_three (t : Nat → Option Response) :
    retryRun t 3 0 =
      match t 0 with
      | some r => (1, some r)
      | none =>
        match t 1 with
        | some r => (2, some r)
        | none =>
          match t 2 with
          | some r => (3, some r)
          | none => (3, none) := by
  cases h0 : t 0 <;> cases h1 : t 1 <;> cases h2 : t 2 <;>
    simp [retryRun, h0, h1, h2]

/-- C1, counterexample: a response whose transport HTTP status is 500 but
whose JSON body decodes to `status = 200` is still classified as successful
by `postRequest` — the (non-200 transport, 200 body) cell of the 2x2 matrix
also yields a non-error result, refuting "exactly the (200,200) case". -/
theorem C1_counterexample :
    (500 : Nat) ≠ 200 ∧
    postRequest { statusCode := 500,
                  body := { content := BodyJson.objStatus 200, consumed := false } }
      = Except.ok { statusCode := 500,
                    body := { content := BodyJson.objStatus 200, consumed := true } } :=
  ⟨by decide, rfl⟩

/-- C1, amended: `postRequest` classifies a call as successful iff the
integer `status` field decoded from the JSON body equals 200; the transport
HTTP status code is never examined, so any transport status paired with body
status 200 yields a non-error result. -/
theorem C1_theorem (resp : Response) :
    (∃ r, postRequest resp = Except.ok r) ↔
      (getBodyRespCode resp.body).1 = Except.ok 200 := by
  unfold postRequest
  cases h : (getBodyRespCode resp.body).1 with
  | error e => simp [h]
  | ok rc =>
    by_cases h2 : rc = 200
    · subst h2; simp [h]
    · simp [h, h2]

/-- C2: `Cameras()` invoked with an empty Cookie returns `nil, d.login()`:
when the login succeeds it returns a `nil` camera list with a `nil` error and
never proceeds to fetch the camera list, contradicting the claim (and the
method's own documentation) that a successful login still yields the camera
list; when the login fails, that authentication error is returned. -/
theorem C2_theorem :
    (login dEmptyCookie (Except.ok { setCookie := "abc123" })).2 = none ∧
    camerasCall dEmptyCookie (Except.ok { setCookie := "abc123" })
        (Except.ok { readErr := false, decoded := Except.ok camOne })
      = (none, none) ∧
    camerasCall dEmptyCookie (Except.error "boom")
        (Except.ok { readErr := false, decoded := Except.ok camOne })
      = (none, some ("Login Request Failed: " ++ "boom")) :=
  ⟨rfl, rfl, rfl⟩

/-- C3: when the transport request of `login` succeeds but the response
carries an empty `Set-Cookie` header, `login` returns the missing-token
error and the stored Cookie field is still empty after the call. -/
theorem C3_theorem (d : Dropcam) (r : LoginResponse) (h : r.setCookie = "") :
    (login d (Except.ok r)).2 = some "Login Returned No Cookie" ∧
    (login d (Except.ok r)).1.Cookie = "" := by
  unfold login
  simp [h]

/-- C3, witness. -/
theorem C3_witness :
    (login dEmptyCookie (Except.ok { setCookie := "" })).2
        = some "Login Returned No Cookie" ∧
    (login dEmptyCookie (Except.ok { setCookie := "" })).1.Cookie = "" :=
  C3_theorem dEmptyCookie { setCookie := "" } rfl

/-- C4, counterexample: the claim covers both GET and POST, but
`postRequest` sends its request without ever calling `.Retry` — only
`getRequest` configures the retry count 3 — so not every transport request
issued by the session layer is retried up to 3 attempts. -/
theorem C4_counterexample :
    postRequestConfig.retryCount = none ∧
    getRequestConfig.retryCount = some 3 :=
  ⟨rfl, rfl⟩

/-- C4, amended: only GET requests are configured with retry count 3 (POST
requests configure no retry), and under the spec-modelled retry driver a
transport that fails twice then succeeds leads to success with exactly 3
underlying attempts, while a transport that always fails leads to failure
after exactly 3 attempts. -/
theorem C4_theorem (t : Nat → Option Response) (r : Response)
    (h0 : t 0 = none) (h1 : t 1 = none) :
    getRequestConfig.retryCount = some 3 ∧
    postRequestConfig.retryCount = none ∧
    (t 2 = some r → retryRun t 3 0 = (3, some r)) ∧
    ((∀ i, t i = none) → retryRun t 3 0 = (3, none)) := by
  refine ⟨rfl, rfl, ?_, ?_⟩
  · intro h2
    rw [retryRun_three, h0, h1, h2]
  · intro hall
    rw [retryRun_three, hall 0, hall 1, hall 2]

/-- C4, witness. -/
theorem C4_witness :
    retryRun flakyTransport 3 0 = (3, some respOk) ∧
    retryRun deadTransport 3 0 = (3, none) :=
  ⟨(C4_theorem flakyTransport respOk rfl rfl).2.2.1 rfl,
   (C4_theorem deadTransport respOk rfl rfl).2.2.2 (fun _ => rfl)⟩

/-- C5: `SetProperties` does marshal the JSON body
`camera_uuid / name / value` from the camera uuid and the given name and
value, but on a server body with `status = 200` it returns
`(false, "Failed to get Reply Response Code")` instead of `(true, nil)`:
`postRequest` has already consumed the one-shot response body, so the second
`getBodyRespCode` decodes empty bytes and the success branch is unreachable;
a body with `status = 403` yields the generic `"Failed postRequest "`
error. -/
theorem C5_theorem :
    (mkCamProp cam1 "streaming.enabled" "true").jsonFields =
      [("camera_uuid", "u1"), ("name", "streaming.enabled"),
       ("value", "true")] ∧
    SetProperties { statusCode := 200,
                    body := { content := BodyJson.objStatus 200, consumed := false } }
      = (false, some "Failed to get Reply Response Code") ∧
    SetProperties { statusCode := 200,
                    body := { content := BodyJson.objStatus 403, consumed := false } }
      = (false, some "Failed postRequest ") :=
  ⟨rfl, rfl, rfl⟩

/-- C6: an image fetch whose response has transport status 200 but a
`content-length` header equal to `"0"` returns an error rather than image
bytes, and a successful image fetch requires transport status 200 and
`content-length` different from `"0"`. -/
theorem C6_theorem :
    (∀ r : ImageResponse, r.StatusCode = 200 → r.contentLength = "0" →
      ∃ e, getImage (Except.ok r) = Except.error e) ∧
    (∀ r : ImageResponse, ∀ b, getImage (Except.ok r) = Except.ok b →
      r.StatusCode = 200 ∧ r.contentLength ≠ "0") := by
  constructor
  · intro r h200 h0
    by_cases hre : r.readErr = true
    · exact ⟨"Failed to get Reply Response Code", by simp [getImage, hre]⟩
    · exact ⟨"Malformed Request or image has 0 size",
        by simp [getImage, hre, h0]⟩
  · intro r b hok
    by_cases hre : r.readErr = true
    · simp [getImage, hre] at hok
    · by_cases hc : (r.StatusCode != 200 || r.contentLength == "0") = true
      · simp [getImage, hre, hc] at hok
      · simp only [Bool.or_eq_true, not_or, bne_iff_ne, ne_eq,
          Decidable.not_not, beq_iff_eq] at hc
        exact ⟨hc.1, hc.2⟩

/-- C6, witness. -/
theorem C6_witness : ∃ e, getImage (Except.ok imgZero) = Except.error e :=
  C6_theorem.1 imgZero rfl rfl

/-- C7, counterexample: with a non-empty cookie, a camera-list response
whose body read failed (`readErr = true`) but whose partial bytes decode
cleanly is returned by `Cameras` as a successful result with no error — the
`ioutil.ReadAll` error is swallowed, refuting "every failure path (including
a failed body read) returns a typed error". -/
theorem C7_counterexample :
    camerasCall dAuth (Except.ok { setCookie := "tok" })
        (Except.ok { readErr := true, decoded := Except.ok camOne })
      = (some { Cam := [cam1] }, none) :=
  rfl

/-- C7, amended: failure paths return typed errors except body-read errors
in `Cameras`: its outcome is independent of whether the body read failed
(the `ReadAll` error is overwritten without being checked), so a failed read
whose partial bytes decode cleanly is reported as success; transport and
decode failures do return errors, `GetEvents` does return its body-read
error, and a well-formed response decoding to an empty collection is a
legitimate empty result with no error. -/
theorem C7_theorem :
    (∀ d lo dec, d.Cookie ≠ "" →
      camerasCall d lo (Except.ok { readErr := true, decoded := dec }) =
        camerasCall d lo (Except.ok { readErr := false, decoded := dec })) ∧
    (∀ d lo e, d.Cookie ≠ "" →
      camerasCall d lo (Except.error e)
        = (none, some "Get Visible Cameras Request Failed")) ∧
    (∀ d lo e b, d.Cookie ≠ "" →
      camerasCall d lo (Except.ok { readErr := b, decoded := Except.error e })
        = (none, some e)) ∧
    (∀ d lo cam b, d.Cookie ≠ "" → Cam.Items cam = [] →
      camerasCall d lo (Except.ok { readErr := b, decoded := Except.ok cam })
        = (some { Cam := [] }, none)) ∧
    (∀ r : EventResponse, r.readErr = true →
      GetEvents (Except.ok r) = Except.error "EVent ioutil.ReadAll failed") := by
  refine ⟨?_, ?_, ?_, ?_, ?_⟩
  · intro d lo dec h
    simp [camerasCall, h]
  · intro d lo e h
    simp [camerasCall, h]
  · intro d lo e b h
    simp [camerasCall, h]
  · intro d lo cam b h hItems
    simp [camerasCall, h, hItems]
  · intro r h
    simp [GetEvents, h]

/-- C7, witness. -/
theorem C7_witness :
    camerasCall dAuth (Except.ok { setCookie := "tok" }) (Except.error "boom")
      = (none, some "Get Visible Cameras Request Failed") :=
  C7_theorem.2.1 dAuth (Except.ok { setCookie := "tok" }) "boom" (by decide)

/-- C8: the query `GetEvents` sends carries `start_time` equal to the start
time in epoch seconds, `end_time` equal to the end time in epoch seconds
minus exactly 86400, and the camera uuid. -/
theorem C8_theorem (uuid : String) (st et : Int) :
    (buildEventQuery uuid st et).lookup "start_time" = some (toString st) ∧
    (buildEventQuery uuid st et).lookup "end_time"
      = some (toString (et - 86400)) ∧
    (buildEventQuery uuid st et).lookup "uuid" = some uuid := by
  have h : (60 : Int) * 60 * 24 = 86400 := by norm_num
  unfold buildEventQuery
  rw [h]
  simp [List.lookup]

/-- C9: whenever `GetEvents` completes without error, the returned event
list is the nil slice: the decoded response is discarded and never converted
into `Events` values. -/
theorem C9_theorem (s : Except String EventResponse)
    (h : ∃ res, GetEvents s = Except.ok res) :
    GetEvents s = Except.ok [] := by
  rcases h with ⟨res, hres⟩
  cases s with
  | error e => simp [GetEvents] at hres
  | ok r =>
    by_cases hre : r.readErr = true
    · simp [GetEvents, hre] at hres
    · cases hdec : r.decoded with
      | error e => simp [GetEvents, hre, hdec] at hres
      | ok u => simp [GetEvents, hre, hdec]

/-- C9, witness. -/
theorem C9_witness :
    GetEvents (Except.ok { readErr := false, decoded := Except.ok () })
      = Except.ok [] :=
  C9_theorem (Except.ok { readErr := false, decoded := Except.ok () })
    ⟨[], rfl⟩

/-- C10: if the underlying image fetch returns an error, `SaveImage`
returns that same error and hands nothing to `WriteFile` (no file write is
attempted); if the fetch succeeds, exactly the fetched bytes are handed to
`WriteFile`. -/
theorem C10_theorem :
    (∀ s w e, getImage s = Except.error e → SaveImage s w = (none, some e)) ∧
    (∀ s w img, getImage s = Except.ok img → (SaveImage s w).1 = some img) := by
  constructor
  · intro s w e h
    unfold SaveImage
    rw [h]
  · intro s w img h
    unfold SaveImage
    rw [h]
    cases w <;> rfl

/-- C10, witness. -/
theorem C10_witness :
    SaveImage (Except.error "network down") none
      = (none, some "Get Image Failed") :=
  C10_theorem.1 (Except.error "network down") none "Get Image Failed" rfl

end DropcamLib
